import Mathlib

/-!
Verification of the reminder resolution, mutation and serialization layer of
the apple-reminders-mcp repository.

The Swift helper (`swift-helper/Sources/*.swift`) is embedded shallowly:
the EventKit store becomes an explicit `EKEventStore` value threaded through
each command, EventKit entity classes become structures, and each
`AsyncParsableCommand.run` body becomes a pure function from a store and the
command's arguments to a result paired with the post-state of the store.
The v1 TypeScript server's AppleScript bulk-listing fallback
(`src/index.ts`, `get_reminders`) is embedded with the external `osascript`
process abstracted as a function argument.
-/

-- ============================================================
-- Dates: model of the Foundation DateFormatter used by EventKitManager
-- ============================================================

/-- Calendar date-time at minute precision.  Models both `Date` values and the
`DateComponents` ([.year, .month, .day, .hour, .minute]) that
`EventKitManager.dateToComponents` produces, since the code only ever observes
dates through those five components. -/
structure DateTime where
  year : Nat
  month : Nat
  day : Nat
  hour : Nat
  minute : Nat
deriving DecidableEq, Repr

/-- Numeric value of a decimal digit character. -/
def digitVal (c : Char) : Nat := c.toNat - '0'.toNat

/-- Number of days in a month, Gregorian calendar. -/
def daysInMonth (year month : Nat) : Nat :=
  if month = 2 then
    if year % 4 = 0 && (year % 100 != 0 || year % 400 = 0) then 29 else 28
  else if month = 4 || month = 6 || month = 9 || month = 11 then 30
  else 31

/-- Model of `EventKitManager.dateFormatter.date(from:)`: the Foundation
`DateFormatter` with format `"yyyy-MM-dd HH:mm"`, locale `en_US_POSIX`, in its
default strict (non-lenient) mode.  Returns `none` exactly when the string is
not a well-formed date in that format. -/
def dateFormatterDate (s : String) : Option DateTime :=
  match s.toList with
  | [y1, y2, y3, y4, c1, mo1, mo2, c2, d1, d2, c3, h1, h2, c4, mi1, mi2] =>
    if c1 == '-' && c2 == '-' && c3 == ' ' && c4 == ':' &&
       y1.isDigit && y2.isDigit && y3.isDigit && y4.isDigit &&
       mo1.isDigit && mo2.isDigit && d1.isDigit && d2.isDigit &&
       h1.isDigit && h2.isDigit && mi1.isDigit && mi2.isDigit then
      let year := ((digitVal y1 * 10 + digitVal y2) * 10 + digitVal y3) * 10 + digitVal y4
      let month := digitVal mo1 * 10 + digitVal mo2
      let day := digitVal d1 * 10 + digitVal d2
      let hour := digitVal h1 * 10 + digitVal h2
      let minute := digitVal mi1 * 10 + digitVal mi2
      if 1 ≤ month && month ≤ 12 && 1 ≤ day && day ≤ daysInMonth year month &&
         hour ≤ 23 && minute ≤ 59 then
        some ⟨year, month, day, hour, minute⟩
      else none
    else none
  | _ => none

/-- Left-pad the decimal representation of `n` with zeros to width 2. -/
def pad2 (n : Nat) : String := if n < 10 then "0" ++ toString n else toString n

/-- Left-pad the decimal representation of `n` with zeros to width 4. -/
def pad4 (n : Nat) : String :=
  if n < 10 then "000" ++ toString n
  else if n < 100 then "00" ++ toString n
  else if n < 1000 then "0" ++ toString n
  else toString n

/-- Model of `EventKitManager.dateFormatter.string(from:)`: renders a date in
the fixed `"yyyy-MM-dd HH:mm"` format. -/
def dateFormatterString (d : DateTime) : String :=
  pad4 d.year ++ "-" ++ pad2 d.month ++ "-" ++ pad2 d.day ++ " " ++
    pad2 d.hour ++ ":" ++ pad2 d.minute

-- ============================================================
-- EventKit entity model
-- ============================================================

/-- Geographic coordinate of an `EKStructuredLocation` (`CLLocation`).  The
repository never computes with coordinates; they are carried opaquely, so the
Swift `Double` fields are modelled as integers. -/
structure GeoLocation where
  latitude : Int
  longitude : Int
deriving DecidableEq, Repr

/-- Model of `EKStructuredLocation`. -/
structure StructuredLocation where
  title : Option String
  geoLocation : Option GeoLocation
  radius : Int
deriving DecidableEq, Repr

/-- Model of `EKAlarmProximity`. -/
inductive Proximity where
  | enter
  | leave
  | none
deriving DecidableEq, Repr

/-- Model of `EKAlarm`: an alarm created with `EKAlarm(absoluteDate:)` carries
an absolute date and no location; an alarm built by `SetLocation.run` carries a
structured location and a proximity. -/
structure EKAlarm where
  absoluteDate : Option DateTime
  structuredLocation : Option StructuredLocation
  proximity : Proximity
deriving DecidableEq, Repr

/-- Model of `EKRecurrenceFrequency`. -/
inductive EKRecurrenceFrequency where
  | daily
  | weekly
  | monthly
  | yearly
deriving DecidableEq, Repr

/-- Model of `EKRecurrenceEnd`: either a count-based or a date-based end.
EventKit exposes both `endDate` and `occurrenceCount` on one object, with
`occurrenceCount = 0` for date-based ends. -/
structure EKRecurrenceEnd where
  endDate : Option DateTime
  occurrenceCount : Int
deriving DecidableEq, Repr

/-- Model of `EKRecurrenceEnd(occurrenceCount:)`. -/
def EKRecurrenceEnd.ofCount (n : Int) : EKRecurrenceEnd := ⟨Option.none, n⟩

/-- Model of `EKRecurrenceEnd(end:)`. -/
def EKRecurrenceEnd.ofDate (d : DateTime) : EKRecurrenceEnd := ⟨some d, 0⟩

/-- Model of `EKRecurrenceRule`.  The three-argument initializer
`EKRecurrenceRule(recurrenceWith:interval:end:)` used by `SetRecurrence.run`
leaves `daysOfTheWeek` unset. -/
structure EKRecurrenceRule where
  frequency : EKRecurrenceFrequency
  interval : Int
  recurrenceEnd : Option EKRecurrenceEnd
  daysOfTheWeek : Option (List Int)
deriving DecidableEq, Repr

/-- Model of `EKCalendar` (a reminder list). -/
structure EKCalendar where
  title : String
deriving DecidableEq, Repr

/-- Model of `EKReminder`.  `id` stands for the store-managed object identity
(`calendarItemIdentifier`); `calendarName` is the title of the owning
`EKCalendar`.  `alarms` and `recurrenceRules` are optional arrays exactly as in
EventKit. -/
structure EKReminder where
  id : Nat
  calendarName : String
  title : String
  notes : Option String
  isCompleted : Bool
  dueDateComponents : Option DateTime
  priority : Int
  alarms : Option (List EKAlarm)
  recurrenceRules : Option (List EKRecurrenceRule)
deriving DecidableEq, Repr

/-- Model of `EKReminder.addAlarm`: appends to the alarm array, creating it if
absent. -/
def EKReminder.addAlarm (r : EKReminder) (a : EKAlarm) : EKReminder :=
  { r with alarms := some (r.alarms.getD [] ++ [a]) }

/-- Net effect of the Swift pattern
`if let existingAlarms = target.alarms { for alarm in existingAlarms where p { target.removeAlarm(alarm) } }`:
every alarm satisfying `p` is removed, the rest are kept in order. -/
def EKReminder.removeAlarmsWhere (r : EKReminder) (p : EKAlarm → Bool) : EKReminder :=
  match r.alarms with
  | Option.none => r
  | some existing => { r with alarms := some (existing.filter (fun a => !(p a))) }

/-- Model of `EKReminder.addRecurrenceRule`: appends to the rule array,
creating it if absent. -/
def EKReminder.addRecurrenceRule (r : EKReminder) (rule : EKRecurrenceRule) : EKReminder :=
  { r with recurrenceRules := some (r.recurrenceRules.getD [] ++ [rule]) }

/-- Net effect of the Swift pattern
`if let rules = target.recurrenceRules { for rule in rules { target.removeRecurrenceRule(rule) } }`:
every rule present is removed. -/
def EKReminder.removeAllRecurrenceRules (r : EKReminder) : EKReminder :=
  match r.recurrenceRules with
  | Option.none => r
  | some _ => { r with recurrenceRules := some [] }

/-- Model of `EKReminder.hasRecurrenceRules`. -/
def EKReminder.hasRecurrenceRules (r : EKReminder) : Bool :=
  !(r.recurrenceRules.getD []).isEmpty

/-- Model of `EKEventStore` restricted to reminders: the reminder lists and
the reminders themselves, in store iteration order. -/
structure EKEventStore where
  calendars : List EKCalendar
  reminders : List EKReminder
deriving DecidableEq, Repr

-- ============================================================
-- Error taxonomy (EventKitManager.swift, enum RemindersError)
-- ============================================================

/-- Model of `RemindersError`. -/
inductive RemindersError where
  | accessDenied
  | listNotFound (name : String)
  | reminderNotFound (name : String)
  | fetchFailed
  | saveFailed (msg : String)
  | invalidDate (str : String)
deriving DecidableEq, Repr

-- ============================================================
-- EventKitManager: resolver, fetch, save, date utilities
-- ============================================================

/-- Model of `EventKitManager.getAllLists`. -/
def getAllLists (s : EKEventStore) : List EKCalendar := s.calendars

/-- Model of `EventKitManager.findList`: first calendar whose title is exactly
(case-sensitively) equal to `name`, else `listNotFound`. -/
def findList (s : EKEventStore) (name : String) : Except RemindersError EKCalendar :=
  match s.calendars.find? (fun c => c.title == name) with
  | some calendar => Except.ok calendar
  | Option.none => Except.error (RemindersError.listNotFound name)

/-- Model of `EventKitManager.fetchReminders`: the store's reminders belonging
to `calendar`, excluding completed ones unless `includeCompleted`.  The
external store is assumed to reply (the `fetchFailed` continuation branch fires
only when the OS store returns nil). -/
def fetchReminders (s : EKEventStore) (calendar : EKCalendar)
    (includeCompleted : Bool) : List EKReminder :=
  let reminders := s.reminders.filter (fun r => r.calendarName == calendar.title)
  if includeCompleted then reminders
  else reminders.filter (fun r => !r.isCompleted)

/-- Model of `EventKitManager.findReminder`: resolve the list, fetch with
`includeCompleted: true`, return the first reminder with exactly the requested
title. -/
def findReminder (s : EKEventStore) (listName reminderName : String) :
    Except RemindersError EKReminder :=
  match findList s listName with
  | Except.error e => Except.error e
  | Except.ok calendar =>
    match (fetchReminders s calendar true).find? (fun r => r.title == reminderName) with
    | some reminder => Except.ok reminder
    | Option.none => Except.error (RemindersError.reminderNotFound reminderName)

/-- Model of `EventKitManager.save` (`store.save(reminder, commit: true)`) for
a reminder previously obtained from the store: the store commits the new state
of the object with that identity.  Every command in the repository saves only
reminders resolved through `findReminder`. -/
def save (s : EKEventStore) (r : EKReminder) : EKEventStore :=
  { s with reminders := s.reminders.map (fun x => if x.id == r.id then r else x) }

/-- Model of `EventKitManager.parseDate`: wraps the date formatter, throwing
`invalidDate` when the string does not parse. -/
def parseDate (dateString : String) : Except RemindersError DateTime :=
  match dateFormatterDate dateString with
  | some date => Except.ok date
  | Option.none => Except.error (RemindersError.invalidDate dateString)

/-- Model of `EventKitManager.dateToComponents`: a `DateTime` already is its
five calendar components. -/
def dateToComponents (date : DateTime) : DateTime := date

/-- Model of `Calendar.current.date(from: components)` as used by `toOutput`;
components stored by this layer always denote a valid date. -/
def dateFromComponents (components : DateTime) : Option DateTime := some components

-- ============================================================
-- Output models (Models.swift)
-- ============================================================

/-- Model of `SuccessOutput`. -/
structure SuccessOutput where
  success : Bool
  message : String
deriving DecidableEq, Repr

/-- Model of `RecurrenceInfo`. -/
structure RecurrenceInfo where
  frequency : String
  interval : Int
  endDate : Option String
  endCount : Option Int
  daysOfWeek : Option (List Int)
deriving DecidableEq, Repr

/-- Model of `LocationInfo`. -/
structure LocationInfo where
  title : Option String
  latitude : Int
  longitude : Int
  radius : Int
  proximity : String
deriving DecidableEq, Repr

/-- Model of `ReminderOutput`. -/
structure ReminderOutput where
  title : String
  body : Option String
  completed : Bool
  dueDate : Option String
  priority : Int
  flagged : Bool
  hasRecurrence : Bool
  recurrence : Option RecurrenceInfo
  hasLocation : Bool
  location : Option LocationInfo
deriving DecidableEq, Repr

/-- String rendering of a frequency, from `EventKitManager.ruleToInfo`. -/
def frequencyString (f : EKRecurrenceFrequency) : String :=
  match f with
  | EKRecurrenceFrequency.daily => "daily"
  | EKRecurrenceFrequency.weekly => "weekly"
  | EKRecurrenceFrequency.monthly => "monthly"
  | EKRecurrenceFrequency.yearly => "yearly"

/-- String rendering of a proximity, from the `switch alarm.proximity` in
`EventKitManager.toOutput`. -/
def proximityString (p : Proximity) : String :=
  match p with
  | Proximity.enter => "enter"
  | Proximity.leave => "leave"
  | Proximity.none => "none"

/-- Model of `EventKitManager.ruleToInfo`. -/
def ruleToInfo (rule : EKRecurrenceRule) : RecurrenceInfo :=
  { frequency := frequencyString rule.frequency
  , interval := rule.interval
  , endDate :=
      match rule.recurrenceEnd with
      | some e => e.endDate.map dateFormatterString
      | Option.none => Option.none
  , endCount :=
      match rule.recurrenceEnd with
      | some e => if e.occurrenceCount > 0 then some e.occurrenceCount else Option.none
      | Option.none => Option.none
  , daysOfWeek := rule.daysOfTheWeek }

/-- The location-scanning loop of `EventKitManager.toOutput`: the first alarm
carrying a structured location with a geo location yields the `LocationInfo`;
the loop breaks there. -/
def locationOf : List EKAlarm → Option LocationInfo
  | [] => Option.none
  | alarm :: rest =>
    match alarm.structuredLocation with
    | some loc =>
      match loc.geoLocation with
      | some geo =>
        some { title := loc.title
             , latitude := geo.latitude
             , longitude := geo.longitude
             , radius := loc.radius
             , proximity := proximityString alarm.proximity }
      | Option.none => locationOf rest
    | Option.none => locationOf rest

/-- Model of `EventKitManager.toOutput`. -/
def toOutput (reminder : EKReminder) : ReminderOutput :=
  let dueDateStr : Option String :=
    match reminder.dueDateComponents with
    | some components =>
      match dateFromComponents components with
      | some date => some (dateFormatterString date)
      | Option.none => Option.none
    | Option.none => Option.none
  let hasRecurrence :=
    reminder.hasRecurrenceRules && !((reminder.recurrenceRules.getD []).isEmpty)
  let recurrenceInfo : Option RecurrenceInfo :=
    if hasRecurrence then
      match reminder.recurrenceRules with
      | some (rule :: _) => some (ruleToInfo rule)
      | _ => Option.none
    else Option.none
  let locInfo := locationOf (reminder.alarms.getD [])
  { title := reminder.title
  , body := reminder.notes
  , completed := reminder.isCompleted
  , dueDate := dueDateStr
  , priority := reminder.priority
  , flagged := false
  , hasRecurrence := hasRecurrence
  , recurrence := recurrenceInfo
  , hasLocation := locInfo.isSome
  , location := locInfo }

-- ============================================================
-- Commands (CrudCommands.swift, PropertyCommands.swift,
-- RecurrenceCommands.swift, LocationCommands.swift)
-- ============================================================

/-- Result of one CLI command invocation: the value written to stdout on the
normal path (`Except.ok`), or the Swift error thrown out of `run()`
(`Except.error`), paired with the post-state of the store.  A thrown error
leaves the store exactly as it was, since `save` is the only store mutation. -/
abbrev CommandResult (α : Type) := Except RemindersError α × EKEventStore

/-- Model of `UpdateReminder.run` (CrudCommands.swift).  The guard returns a
`success: false` envelope before any store access when no update field is
supplied; otherwise the resolved reminder is updated in the order name, body,
append, due date, and saved once at the end. -/
def updateReminder (s : EKEventStore) (list reminder : String)
    (newName newBody appendBody newDueDate : Option String) :
    CommandResult SuccessOutput :=
  if !(newName.isSome || newBody.isSome || appendBody.isSome || newDueDate.isSome) then
    (Except.ok { success := false, message := "更新する項目が指定されていません" }, s)
  else
    match findReminder s list reminder with
    | Except.error e => (Except.error e, s)
    | Except.ok target =>
      let target :=
        match newName with
        | some name => { target with title := name }
        | Option.none => target
      let target :=
        match newBody with
        | some body => { target with notes := some body }
        | Option.none => target
      let target :=
        match appendBody with
        | some append => { target with notes := some (target.notes.getD "" ++ "\n" ++ append) }
        | Option.none => target
      match newDueDate with
      | some dueDateStr =>
        match parseDate dueDateStr with
        | Except.error e => (Except.error e, s)
        | Except.ok date =>
          let target := { target with dueDateComponents := some (dateToComponents date) }
          (Except.ok { success := true
                     , message := "リマインダー「" ++ reminder ++ "」を更新しました" },
           save s target)
      | Option.none =>
        (Except.ok { success := true
                   , message := "リマインダー「" ++ reminder ++ "」を更新しました" },
         save s target)

/-- Priority label computation of `SetPriority.run` (PropertyCommands.swift):
`priority == 0 ? "なし" : priority <= 3 ? "高" : priority <= 6 ? "中" : "低"`
(なし = none, 高 = high, 中 = medium, 低 = low). -/
def priorityLabel (priority : Int) : String :=
  if priority = 0 then "なし"
  else if priority ≤ 3 then "高"
  else if priority ≤ 6 then "中"
  else "低"

/-- Model of `SetPriority.run` (PropertyCommands.swift). -/
def setPriority (s : EKEventStore) (list reminder : String) (priority : Int) :
    CommandResult SuccessOutput :=
  match findReminder s list reminder with
  | Except.error e => (Except.error e, s)
  | Except.ok target =>
    let target := { target with priority := priority }
    (Except.ok { success := true
               , message := "リマインダー「" ++ reminder ++ "」の優先度を「" ++
                   priorityLabel priority ++ "」に設定しました" },
     save s target)

/-- Model of `SetRemindDate.run` (PropertyCommands.swift): parse the date,
remove every alarm having an absolute date, add one new absolute-date alarm,
save. -/
def setRemindDate (s : EKEventStore) (list reminder date : String) :
    CommandResult SuccessOutput :=
  match findReminder s list reminder with
  | Except.error e => (Except.error e, s)
  | Except.ok target =>
    match parseDate date with
    | Except.error e => (Except.error e, s)
    | Except.ok remindDate =>
      let alarm : EKAlarm :=
        { absoluteDate := some remindDate
        , structuredLocation := Option.none
        , proximity := Proximity.none }
      let target := target.removeAlarmsWhere (fun a => a.absoluteDate.isSome)
      let target := target.addAlarm alarm
      (Except.ok { success := true
                 , message := "リマインダー「" ++ reminder ++ "」の通知日時を「" ++
                     date ++ "」に設定しました" },
       save s target)

/-- Model of Swift's `String.lowercased()` (character-wise lowercasing; the
frequency keywords are ASCII). -/
def lowercased (s : String) : String := String.mk (s.data.map Char.toLower)

/-- Frequency conversion of `SetRecurrence.run`: the
`switch frequency.lowercased()` accepting daily, weekly, monthly, yearly. -/
def parseFrequency (frequency : String) : Option EKRecurrenceFrequency :=
  match lowercased frequency with
  | "daily" => some EKRecurrenceFrequency.daily
  | "weekly" => some EKRecurrenceFrequency.weekly
  | "monthly" => some EKRecurrenceFrequency.monthly
  | "yearly" => some EKRecurrenceFrequency.yearly
  | _ => Option.none

/-- End-condition construction of `SetRecurrence.run`:
`if let count = endCount { ... } else if let dateStr = endDate { parse ... }`.
The `endDate` argument is consulted only when `endCount` is absent. -/
def recurrenceEndOf (endCount : Option Int) (endDate : Option String) :
    Except RemindersError (Option EKRecurrenceEnd) :=
  match endCount with
  | some count => Except.ok (some (EKRecurrenceEnd.ofCount count))
  | Option.none =>
    match endDate with
    | some dateStr =>
      match parseDate dateStr with
      | Except.error e => Except.error e
      | Except.ok date => Except.ok (some (EKRecurrenceEnd.ofDate date))
    | Option.none => Except.ok Option.none

/-- Frequency label of `SetRecurrence.run`'s success message. -/
def freqLabel (frequency : String) (interval : Int) : String :=
  match lowercased frequency with
  | "daily" => if interval = 1 then "毎日" else toString interval ++ "日ごと"
  | "weekly" => if interval = 1 then "毎週" else toString interval ++ "週ごと"
  | "monthly" => if interval = 1 then "毎月" else toString interval ++ "ヶ月ごと"
  | "yearly" => if interval = 1 then "毎年" else toString interval ++ "年ごと"
  | _ => frequency

/-- Model of `SetRecurrence.run` (RecurrenceCommands.swift): resolve the
reminder; an unrecognised frequency yields a `success: false` envelope and no
store change; otherwise build the end condition (count takes precedence over
date), remove all existing recurrence rules, add the one new rule, save. -/
def setRecurrence (s : EKEventStore) (list reminder frequency : String)
    (interval : Int) (endCount : Option Int) (endDate : Option String) :
    CommandResult SuccessOutput :=
  match findReminder s list reminder with
  | Except.error e => (Except.error e, s)
  | Except.ok target =>
    match parseFrequency frequency with
    | Option.none =>
      (Except.ok { success := false
                 , message := "無効な頻度: " ++ frequency ++ " (daily/weekly/monthly/yearly)" },
       s)
    | some freq =>
      match recurrenceEndOf endCount endDate with
      | Except.error e => (Except.error e, s)
      | Except.ok recEnd =>
        let target := target.removeAllRecurrenceRules
        let rule : EKRecurrenceRule :=
          { frequency := freq
          , interval := interval
          , recurrenceEnd := recEnd
          , daysOfTheWeek := Option.none }
        let target := target.addRecurrenceRule rule
        (Except.ok { success := true
                   , message := "リマインダー「" ++ reminder ++ "」に繰り返し「" ++
                       freqLabel frequency interval ++ "」を設定しました" },
         save s target)

/-- Model of `ClearRecurrence.run` (RecurrenceCommands.swift). -/
def clearRecurrence (s : EKEventStore) (list reminder : String) :
    CommandResult SuccessOutput :=
  match findReminder s list reminder with
  | Except.error e => (Except.error e, s)
  | Except.ok target =>
    let target := target.removeAllRecurrenceRules
    (Except.ok { success := true
               , message := "リマインダー「" ++ reminder ++ "」の繰り返しルールを解除しました" },
     save s target)

/-- Output of `GetLocation.run`: the reminder's `LocationInfo` if one is found,
else a success envelope explaining that no location alarm is set. -/
inductive GetLocationOutput where
  | info (li : LocationInfo)
  | msg (o : SuccessOutput)
deriving DecidableEq, Repr

/-- Model of `GetLocation.run` (LocationCommands.swift); read-only, so no store
is returned. -/
def getLocation (s : EKEventStore) (list reminder : String) :
    Except RemindersError GetLocationOutput :=
  match findReminder s list reminder with
  | Except.error e => Except.error e
  | Except.ok target =>
    let output := toOutput target
    match output.location with
    | some li => Except.ok (GetLocationOutput.info li)
    | Option.none =>
      Except.ok (GetLocationOutput.msg
        { success := true, message := "場所ベースの通知は設定されていません" })

/-- Model of `ClearLocation.run` (LocationCommands.swift): remove exactly the
alarms carrying a structured location, keep the rest, save. -/
def clearLocation (s : EKEventStore) (list reminder : String) :
    CommandResult SuccessOutput :=
  match findReminder s list reminder with
  | Except.error e => (Except.error e, s)
  | Except.ok target =>
    let target := target.removeAlarmsWhere (fun a => a.structuredLocation.isSome)
    (Except.ok { success := true
               , message := "リマインダー「" ++ reminder ++ "」の場所ベース通知を解除しました" },
     save s target)

-- ============================================================
-- v1 TypeScript server: get_reminders with AppleScript fallback
-- (src/index.ts, tool "get_reminders")
-- ============================================================

/-- The `filter` fragment of the v1 `get_reminders` tool:
`includeCompleted ? "" : " whose completed is false"`. -/
def reminderFilter (includeCompleted : Bool) : String :=
  if includeCompleted then "" else " whose completed is false"

/-- The detailed AppleScript of the v1 `get_reminders` tool: one record per
reminder with name, body, completed and due date. -/
def detailedScript (listName : String) (includeCompleted : Bool) : String :=
  "\n      tell application \"Reminders\"\n        set myList to list \"" ++ listName ++
  "\"\n        set reminderData to \x7b\x7d\n        repeat with r in (every reminder of myList" ++
  reminderFilter includeCompleted ++
  ")\n          set end of reminderData to \x7b|name|:name of r, |body|:body of r, |completed|:completed of r, |dueDate|:due date of r\x7d\n        end repeat\n        return reminderData\n      end tell\n    "

/-- The simplified fallback AppleScript of the v1 `get_reminders` tool: names
only. -/
def simpleScript (listName : String) (includeCompleted : Bool) : String :=
  "\n        tell application \"Reminders\"\n          set myList to list \"" ++ listName ++
  "\"\n          get name of every reminder of myList" ++
  reminderFilter includeCompleted ++ "\n        end tell\n      "

/-- Model of `JSON.stringify(strings, null, 2)` for the string arrays the v1
tool produces (reminder names contain no characters needing JSON escapes in
this model). -/
def jsonStringify2 (xs : List String) : String :=
  match xs with
  | [] => "[]"
  | _ => "[\n" ++ String.intercalate ",\n" (xs.map (fun x => "  \"" ++ x ++ "\"")) ++ "\n]"

/-- Model of the v1 `get_reminders` tool handler (src/index.ts).  The external
`osascript` process is abstracted as `runAppleScript`, mapping a script to its
stdout (`Except.ok`) or to a thrown error (`Except.error`).  The detailed
script is attempted first; if it throws, the simplified names-only script is
run for the whole call and its result returned; an error escapes only if the
fallback itself throws. -/
def getRemindersToolV1 (runAppleScript : String → Except String String)
    (listName : String) (includeCompleted : Bool) : Except String String :=
  match runAppleScript (detailedScript listName includeCompleted) with
  | Except.ok result =>
    Except.ok (if result == "" then "リマインダーがありません" else result)
  | Except.error _ =>
    match runAppleScript (simpleScript listName includeCompleted) with
    | Except.ok result =>
      Except.ok (jsonStringify2 (if result == "" then [] else result.splitOn ", "))
    | Except.error e => Except.error e

-- ============================================================
-- List lemmas
-- ============================================================

/-- Finding in a filtered list is finding with the conjoined predicate. -/
theorem list_find?_filter {α : Type} (l : List α) (p q : α → Bool) :
    (l.filter p).find? q = l.find? (fun a => p a && q a) := by
  induction l with
  | nil => rfl
  | cons x xs ih =>
    cases hp : p x with
    | true =>
      cases hq : q x with
      | true => simp [List.filter_cons, hp, List.find?_cons, hq]
      | false => simp [List.filter_cons, hp, List.find?_cons, hq, ih]
    | false => simp [List.filter_cons, hp, List.find?_cons, ih]

/-- Replacing, by id, the reminder that `find?` locates (or any same-id
duplicate) makes `find?` return the replacement, provided the replacement still
satisfies the predicate. -/
theorem list_find?_map_update (l : List EKReminder) (q : EKReminder → Bool)
    (t t' : EKReminder) (h : l.find? q = some t) (hid : t'.id = t.id)
    (hq : q t' = true) :
    (l.map (fun x => if x.id == t'.id then t' else x)).find? q = some t' := by
  induction l with
  | nil => simp at h
  | cons x xs ih =>
    cases hqx : q x with
    | true =>
      rw [List.find?_cons_of_pos _ hqx] at h
      have hx : x = t := by injection h
      subst hx
      have hbeq : (x.id == t'.id) = true := by simp [hid]
      have hfx : (if x.id == t'.id then t' else x) = t' := by simp [hbeq]
      simp only [List.map_cons, hfx]
      exact List.find?_cons_of_pos _ hq
    | false =>
      rw [List.find?_cons_of_neg _ (by simp [hqx])] at h
      cases hx : (x.id == t'.id) with
      | true =>
        have hfx : (if x.id == t'.id then t' else x) = t' := by simp [hx]
        simp only [List.map_cons, hfx]
        exact List.find?_cons_of_pos _ hq
      | false =>
        have hfx : (if x.id == t'.id then t' else x) = x := by simp [hx]
        simp only [List.map_cons, hfx]
        rw [List.find?_cons_of_neg _ (by simp [hqx])]
        exact ih h

/-- Alarms surviving `removeAlarmsWhere p` never satisfy `p` again. -/
theorem filter_not_filter {α : Type} (l : List α) (p : α → Bool) :
    (l.filter (fun a => !(p a))).filter p = [] := by
  induction l with
  | nil => rfl
  | cons x xs ih =>
    cases hp : p x with
    | true => simp [List.filter_cons, hp, ih]
    | false => simp [List.filter_cons, hp, ih]

/-- Characterization of a successful `findReminder`. -/
theorem findReminder_ok_iff (s : EKEventStore) (ln rn : String) (r : EKReminder) :
    findReminder s ln rn = Except.ok r ↔
    ∃ c, findList s ln = Except.ok c ∧
      (fetchReminders s c true).find? (fun x => x.title == rn) = some r := by
  unfold findReminder
  cases hc : findList s ln with
  | error e => simp
  | ok c =>
    cases hf : (fetchReminders s c true).find? (fun x => x.title == rn) with
    | none => simp [hf]
    | some x => simp [hf]

/-- After a save, resolving the same list and title yields the saved reminder,
as long as the save did not change the identity, owning list, or title. -/
theorem findReminder_save (s : EKEventStore) (l rn : String) (t t' : EKReminder)
    (h : findReminder s l rn = Except.ok t)
    (hid : t'.id = t.id) (hcal : t'.calendarName = t.calendarName)
    (htitle : t'.title = t.title) :
    findReminder (save s t') l rn = Except.ok t' := by
  obtain ⟨c, hc, hf⟩ := (findReminder_ok_iff s l rn t).mp h
  rw [findReminder_ok_iff]
  refine ⟨c, ?_, ?_⟩
  · unfold findList at hc ⊢
    exact hc
  · have hf' : s.reminders.find?
        (fun x => (x.calendarName == c.title) && (x.title == rn)) = some t := by
      rw [← list_find?_filter]
      simpa [fetchReminders] using hf
    have hqr := List.find?_some hf'
    have hqt' : ((t'.calendarName == c.title) && (t'.title == rn)) = true := by
      rw [hcal, htitle]; exact hqr
    have hfind : (save s t').reminders.find?
        (fun x => (x.calendarName == c.title) && (x.title == rn)) = some t' := by
      unfold save
      exact list_find?_map_update s.reminders _ t t' hf' hid hqt'
    simpa [fetchReminders, list_find?_filter] using hfind

-- ============================================================
-- Claims
-- ============================================================

/-- Spec-side resolver, following the spec's words (section 4.2): resolve the
list by exact name equality, first match wins, `listNotFound` otherwise; then
take the first reminder of that list in store iteration order — completed ones
included — whose title equals the requested title exactly, `reminderNotFound`
if none. -/
def findReminderSpec (s : EKEventStore) (listName title : String) :
    Except RemindersError EKReminder :=
  match s.calendars.find? (fun c => c.title == listName) with
  | Option.none => Except.error (RemindersError.listNotFound listName)
  | some calendar =>
    match (s.reminders.filter (fun r => r.calendarName == calendar.title)).find?
        (fun r => r.title == title) with
    | some r => Except.ok r
    | Option.none => Except.error (RemindersError.reminderNotFound title)

/-- C4: `findReminder` resolves the list by exact case-sensitive name equality
(first match wins, `listNotFound` otherwise), fetches that list's reminders
with `includeCompleted = true` — so completed reminders remain addressable —
and returns the first reminder in store iteration order whose title equals the
requested title exactly (`reminderNotFound` if none); whenever it succeeds the
returned reminder's title equals the requested title. -/
theorem claim_C4 :
    (∀ (s : EKEventStore) (ln t : String), findReminder s ln t = findReminderSpec s ln t) ∧
    (∀ (s : EKEventStore) (ln t : String) (r : EKReminder),
      findReminder s ln t = Except.ok r → r.title = t) := by
  constructor
  · intro s ln t
    unfold findReminder findList findReminderSpec fetchReminders
    cases hc : s.calendars.find? (fun c => c.title == ln) <;> simp
  · intro s ln t r h
    obtain ⟨c, hc, hf⟩ := (findReminder_ok_iff s ln t r).mp h
    have := List.find?_some hf
    exact eq_of_beq this

/-- C6: `update` with none of the four optional fields supplied returns the
`success: false` envelope — never a thrown error — and the store is returned
completely unchanged; since this holds for every store (including ones where
the list or reminder does not exist), no resolution, mutation, or save is
performed. -/
theorem claim_C6 : ∀ (s : EKEventStore) (l rn : String),
    updateReminder s l rn Option.none Option.none Option.none Option.none =
      (Except.ok { success := false, message := "更新する項目が指定されていません" }, s) := by
  intro s l rn
  rfl

/-- C8: the priority-to-label bucketing of `SetPriority.run`: 0 maps to なし
(label-class none), 1–3 to 高 (high), 4–6 to 中 (medium), 7–9 to 低 (low). -/
theorem claim_C8 : ∀ p : Int,
    (p = 0 → priorityLabel p = "なし") ∧
    (1 ≤ p ∧ p ≤ 3 → priorityLabel p = "高") ∧
    (4 ≤ p ∧ p ≤ 6 → priorityLabel p = "中") ∧
    (7 ≤ p ∧ p ≤ 9 → priorityLabel p = "低") := by
  intro p
  refine ⟨?_, ?_, ?_, ?_⟩ <;> intro h <;> unfold priorityLabel <;>
    split_ifs <;> first | rfl | omega

/-- Witness for C8 at the concrete priorities the claim names. -/
theorem claim_C8_witness :
    priorityLabel 7 = "低" ∧ priorityLabel 0 = "なし" ∧ priorityLabel 4 = "中" ∧
    priorityLabel 2 = "高" :=
  ⟨(claim_C8 7).2.2.2 ⟨by decide, by decide⟩, (claim_C8 0).1 rfl,
   (claim_C8 4).2.2.1 ⟨by decide, by decide⟩, (claim_C8 2).2.1 ⟨by decide, by decide⟩⟩

/-- C10: an update supplying an unparsable `newDueDate` fails with
`invalidDate` and leaves the store unchanged, even when valid `newName`,
`newBody`, `appendBody` were supplied in the same call: the date parse happens
after the in-memory field edits but before `save`, so nothing is committed. -/
theorem claim_C10 : ∀ (s : EKEventStore) (l rn : String) (nn nb ab : Option String)
    (ds : String) (t : EKReminder),
    findReminder s l rn = Except.ok t →
    dateFormatterDate ds = Option.none →
    updateReminder s l rn nn nb ab (some ds) =
      (Except.error (RemindersError.invalidDate ds), s) := by
  intro s l rn nn nb ab ds t hfind hparse
  simp only [updateReminder, Option.isSome_some, Bool.or_true, Bool.not_true,
    Bool.false_eq_true, if_false, hfind, parseDate, hparse]

-- ============================================================
-- Field-preservation lemmas for the reminder editors
-- ============================================================

@[simp]
theorem EKReminder.removeAlarmsWhere_id (r : EKReminder) (p : EKAlarm → Bool) :
    (r.removeAlarmsWhere p).id = r.id := by
  unfold EKReminder.removeAlarmsWhere; cases r.alarms <;> rfl

@[simp]
theorem EKReminder.removeAlarmsWhere_calendarName (r : EKReminder) (p : EKAlarm → Bool) :
    (r.removeAlarmsWhere p).calendarName = r.calendarName := by
  unfold EKReminder.removeAlarmsWhere; cases r.alarms <;> rfl

@[simp]
theorem EKReminder.removeAlarmsWhere_title (r : EKReminder) (p : EKAlarm → Bool) :
    (r.removeAlarmsWhere p).title = r.title := by
  unfold EKReminder.removeAlarmsWhere; cases r.alarms <;> rfl

theorem EKReminder.removeAlarmsWhere_alarms (r : EKReminder) (p : EKAlarm → Bool) :
    (r.removeAlarmsWhere p).alarms.getD [] = (r.alarms.getD []).filter (fun a => !(p a)) := by
  unfold EKReminder.removeAlarmsWhere; cases h : r.alarms <;> simp [h]

@[simp]
theorem EKReminder.addAlarm_id (r : EKReminder) (a : EKAlarm) :
    (r.addAlarm a).id = r.id := rfl

@[simp]
theorem EKReminder.addAlarm_calendarName (r : EKReminder) (a : EKAlarm) :
    (r.addAlarm a).calendarName = r.calendarName := rfl

@[simp]
theorem EKReminder.addAlarm_title (r : EKReminder) (a : EKAlarm) :
    (r.addAlarm a).title = r.title := rfl

theorem EKReminder.addAlarm_alarms (r : EKReminder) (a : EKAlarm) :
    (r.addAlarm a).alarms.getD [] = r.alarms.getD [] ++ [a] := rfl

@[simp]
theorem EKReminder.removeAllRecurrenceRules_id (r : EKReminder) :
    r.removeAllRecurrenceRules.id = r.id := by
  unfold EKReminder.removeAllRecurrenceRules; cases r.recurrenceRules <;> rfl

@[simp]
theorem EKReminder.removeAllRecurrenceRules_calendarName (r : EKReminder) :
    r.removeAllRecurrenceRules.calendarName = r.calendarName := by
  unfold EKReminder.removeAllRecurrenceRules; cases r.recurrenceRules <;> rfl

@[simp]
theorem EKReminder.removeAllRecurrenceRules_title (r : EKReminder) :
    r.removeAllRecurrenceRules.title = r.title := by
  unfold EKReminder.removeAllRecurrenceRules; cases r.recurrenceRules <;> rfl

@[simp]
theorem EKReminder.addRecurrenceRule_id (r : EKReminder) (rule : EKRecurrenceRule) :
    (r.addRecurrenceRule rule).id = r.id := rfl

@[simp]
theorem EKReminder.addRecurrenceRule_calendarName (r : EKReminder) (rule : EKRecurrenceRule) :
    (r.addRecurrenceRule rule).calendarName = r.calendarName := rfl

@[simp]
theorem EKReminder.addRecurrenceRule_title (r : EKReminder) (rule : EKRecurrenceRule) :
    (r.addRecurrenceRule rule).title = r.title := rfl

/-- Removing every recurrence rule and then adding one leaves exactly that
rule, whatever the rule array held before. -/
theorem removeAll_addRule_rules (r : EKReminder) (rule : EKRecurrenceRule) :
    (r.removeAllRecurrenceRules.addRecurrenceRule rule).recurrenceRules.getD [] = [rule] := by
  unfold EKReminder.removeAllRecurrenceRules EKReminder.addRecurrenceRule
  cases h : r.recurrenceRules <;> simp [h]

/-- The `parseDate` wrapper succeeds exactly when the formatter parses. -/
theorem parseDate_ok_iff (ds : String) (v : DateTime) :
    parseDate ds = Except.ok v ↔ dateFormatterDate ds = some v := by
  unfold parseDate
  cases h : dateFormatterDate ds <;> simp

/-- A failing `findReminder` reports only `listNotFound` or
`reminderNotFound`. -/
theorem findReminder_error_kinds (s : EKEventStore) (l rn : String) (e : RemindersError)
    (h : findReminder s l rn = Except.error e) :
    e = RemindersError.listNotFound l ∨ e = RemindersError.reminderNotFound rn := by
  unfold findReminder at h
  split at h
  · rename_i e' heq
    have he : e' = e := by injection h
    subst he
    unfold findList at heq
    split at heq
    · simp at heq
    · left
      injection heq with h1
      exact h1.symm
  · split at h
    · simp at h
    · right
      injection h with h1
      exact h1.symm

/-- C1: a successful `set-remind-date` call removes all alarms having an
absolute date and then adds the single new time alarm; hence after two
successive successful calls on the same reminder, the reminder carries exactly
one absolute-date alarm and its trigger is the second call's parsed
timestamp. -/
theorem claim_C1 :
    (∀ (s : EKEventStore) (l rn d : String) (o : SuccessOutput) (s' : EKEventStore),
      setRemindDate s l rn d = (Except.ok o, s') →
      ∃ (t : EKReminder) (v : DateTime),
        findReminder s l rn = Except.ok t ∧ dateFormatterDate d = some v ∧
        s' = save s ((t.removeAlarmsWhere (fun a => a.absoluteDate.isSome)).addAlarm
          { absoluteDate := some v, structuredLocation := Option.none
          , proximity := Proximity.none })) ∧
    (∀ (s : EKEventStore) (l rn d1 d2 : String) (o1 : SuccessOutput) (s1 : EKEventStore)
      (o2 : SuccessOutput) (s2 : EKEventStore),
      setRemindDate s l rn d1 = (Except.ok o1, s1) →
      setRemindDate s1 l rn d2 = (Except.ok o2, s2) →
      ∃ (t : EKReminder) (v2 : DateTime),
        dateFormatterDate d2 = some v2 ∧
        findReminder s2 l rn = Except.ok t ∧
        (t.alarms.getD []).filter (fun a => a.absoluteDate.isSome) =
          [{ absoluteDate := some v2, structuredLocation := Option.none
           , proximity := Proximity.none }]) := by
  have part1 : ∀ (s : EKEventStore) (l rn d : String) (o : SuccessOutput) (s' : EKEventStore),
      setRemindDate s l rn d = (Except.ok o, s') →
      ∃ (t : EKReminder) (v : DateTime),
        findReminder s l rn = Except.ok t ∧ dateFormatterDate d = some v ∧
        s' = save s ((t.removeAlarmsWhere (fun a => a.absoluteDate.isSome)).addAlarm
          { absoluteDate := some v, structuredLocation := Option.none
          , proximity := Proximity.none }) := by
    intro s l rn d o s' h
    unfold setRemindDate at h
    split at h
    · simp at h
    · rename_i t heq
      split at h
      · simp at h
      · rename_i v heq2
        injection h with h1 h2
        exact ⟨t, v, heq, (parseDate_ok_iff d v).mp heq2, h2.symm⟩
  refine ⟨part1, ?_⟩
  intro s l rn d1 d2 o1 s1 o2 s2 h1 h2
  obtain ⟨t, v2, hfr, hdf, hs2⟩ := part1 s1 l rn d2 o2 s2 h2
  refine ⟨(t.removeAlarmsWhere (fun a => a.absoluteDate.isSome)).addAlarm
    { absoluteDate := some v2, structuredLocation := Option.none
    , proximity := Proximity.none }, v2, hdf, ?_, ?_⟩
  · rw [hs2]
    exact findReminder_save s1 l rn t _ hfr (by simp) (by simp) (by simp)
  · rw [EKReminder.addAlarm_alarms, EKReminder.removeAlarmsWhere_alarms,
      List.filter_append, filter_not_filter]
    simp

/-- C2: a successful `set-recurrence` call removes every existing recurrence
rule and adds the single rule built from its arguments; hence after two
successive successful calls the reminder carries exactly one rule, matching the
second call's frequency, interval and end condition, even if several rules were
present before. -/
theorem claim_C2 :
    (∀ (s : EKEventStore) (l rn f : String) (iv : Int) (ec : Option Int)
      (ed : Option String) (o : SuccessOutput) (s' : EKEventStore),
      setRecurrence s l rn f iv ec ed = (Except.ok o, s') → o.success = true →
      ∃ (t : EKReminder) (freq : EKRecurrenceFrequency) (recEnd : Option EKRecurrenceEnd),
        findReminder s l rn = Except.ok t ∧ parseFrequency f = some freq ∧
        recurrenceEndOf ec ed = Except.ok recEnd ∧
        s' = save s (t.removeAllRecurrenceRules.addRecurrenceRule
          { frequency := freq, interval := iv, recurrenceEnd := recEnd
          , daysOfTheWeek := Option.none })) ∧
    (∀ (s : EKEventStore) (l rn f1 : String) (iv1 : Int) (ec1 : Option Int)
      (ed1 : Option String) (f2 : String) (iv2 : Int) (ec2 : Option Int)
      (ed2 : Option String) (o1 : SuccessOutput) (s1 : EKEventStore)
      (o2 : SuccessOutput) (s2 : EKEventStore),
      setRecurrence s l rn f1 iv1 ec1 ed1 = (Except.ok o1, s1) → o1.success = true →
      setRecurrence s1 l rn f2 iv2 ec2 ed2 = (Except.ok o2, s2) → o2.success = true →
      ∃ (t : EKReminder) (freq2 : EKRecurrenceFrequency) (recEnd2 : Option EKRecurrenceEnd),
        parseFrequency f2 = some freq2 ∧
        recurrenceEndOf ec2 ed2 = Except.ok recEnd2 ∧
        findReminder s2 l rn = Except.ok t ∧
        t.recurrenceRules.getD [] =
          [{ frequency := freq2, interval := iv2, recurrenceEnd := recEnd2
           , daysOfTheWeek := Option.none }]) := by
  have part1 : ∀ (s : EKEventStore) (l rn f : String) (iv : Int) (ec : Option Int)
      (ed : Option String) (o : SuccessOutput) (s' : EKEventStore),
      setRecurrence s l rn f iv ec ed = (Except.ok o, s') → o.success = true →
      ∃ (t : EKReminder) (freq : EKRecurrenceFrequency) (recEnd : Option EKRecurrenceEnd),
        findReminder s l rn = Except.ok t ∧ parseFrequency f = some freq ∧
        recurrenceEndOf ec ed = Except.ok recEnd ∧
        s' = save s (t.removeAllRecurrenceRules.addRecurrenceRule
          { frequency := freq, interval := iv, recurrenceEnd := recEnd
          , daysOfTheWeek := Option.none }) := by
    intro s l rn f iv ec ed o s' h hsucc
    unfold setRecurrence at h
    split at h
    · simp at h
    · rename_i t heq
      split at h
      · injection h with h1 h2
        injection h1 with ho
        rw [← ho] at hsucc
        simp at hsucc
      · rename_i freq heq2
        split at h
        · simp at h
        · rename_i recEnd heq3
          injection h with h1 h2
          exact ⟨t, freq, recEnd, heq, heq2, heq3, h2.symm⟩
  refine ⟨part1, ?_⟩
  intro s l rn f1 iv1 ec1 ed1 f2 iv2 ec2 ed2 o1 s1 o2 s2 h1 hsucc1 h2 hsucc2
  obtain ⟨t, freq2, recEnd2, hfr, hpf, hre, hs2⟩ := part1 s1 l rn f2 iv2 ec2 ed2 o2 s2 h2 hsucc2
  refine ⟨t.removeAllRecurrenceRules.addRecurrenceRule
    { frequency := freq2, interval := iv2, recurrenceEnd := recEnd2
    , daysOfTheWeek := Option.none }, freq2, recEnd2, hpf, hre, ?_, ?_⟩
  · rw [hs2]
    exact findReminder_save s1 l rn t _ hfr (by simp) (by simp) (by simp)
  · exact removeAll_addRule_rules t _

/-- When no alarm carries a structured location, the serializer's location scan
finds nothing. -/
theorem locationOf_eq_none (as : List EKAlarm)
    (h : ∀ a ∈ as, a.structuredLocation = Option.none) :
    locationOf as = Option.none := by
  induction as with
  | nil => rfl
  | cons a rest ih =>
    have ha := h a (by simp)
    unfold locationOf
    rw [ha]
    exact ih (fun x hx => h x (by simp [hx]))

/-- Alarms kept by the location-clearing filter carry no structured
location. -/
theorem mem_clear_no_location (as : List EKAlarm) (a : EKAlarm)
    (ha : a ∈ as.filter (fun x => !(x.structuredLocation.isSome))) :
    a.structuredLocation = Option.none := by
  have h2 := (List.mem_filter.mp ha).2
  cases hsl : a.structuredLocation with
  | none => rfl
  | some loc => rw [hsl] at h2; simp at h2

/-- Removing the location-carrying alarms leaves the absolute-date alarms
untouched, provided no alarm carries both an absolute date and a structured
location (as in the spec's tagged-union alarm model, and as for every alarm
this codebase creates). -/
theorem filter_time_preserved (as : List EKAlarm)
    (h : ∀ a ∈ as, a.absoluteDate.isSome = true → a.structuredLocation = Option.none) :
    (as.filter (fun a => !(a.structuredLocation.isSome))).filter
        (fun a => a.absoluteDate.isSome) =
      as.filter (fun a => a.absoluteDate.isSome) := by
  induction as with
  | nil => rfl
  | cons a rest ih =>
    have hrest := ih (fun x hx hd => h x (by simp [hx]) hd)
    cases hd : a.absoluteDate.isSome with
    | true =>
      have hl : a.structuredLocation = Option.none := h a (by simp) hd
      have hnl : (!(a.structuredLocation.isSome)) = true := by rw [hl]; rfl
      calc ((a :: rest).filter (fun x => !(x.structuredLocation.isSome))).filter
              (fun x => x.absoluteDate.isSome)
          = (a :: rest.filter (fun x => !(x.structuredLocation.isSome))).filter
              (fun x => x.absoluteDate.isSome) := by
            rw [List.filter_cons, if_pos hnl]
        _ = a :: (rest.filter (fun x => !(x.structuredLocation.isSome))).filter
              (fun x => x.absoluteDate.isSome) := by
            rw [List.filter_cons, if_pos hd]
        _ = a :: rest.filter (fun x => x.absoluteDate.isSome) := by rw [hrest]
        _ = (a :: rest).filter (fun x => x.absoluteDate.isSome) := by
            rw [List.filter_cons, if_pos hd]
    | false =>
      have hdneg : ¬(a.absoluteDate.isSome = true) := by simp [hd]
      cases hl : a.structuredLocation.isSome with
      | true =>
        have hnl : ¬((!(a.structuredLocation.isSome)) = true) := by simp [hl]
        calc ((a :: rest).filter (fun x => !(x.structuredLocation.isSome))).filter
                (fun x => x.absoluteDate.isSome)
            = (rest.filter (fun x => !(x.structuredLocation.isSome))).filter
                (fun x => x.absoluteDate.isSome) := by
              rw [List.filter_cons, if_neg hnl]
          _ = rest.filter (fun x => x.absoluteDate.isSome) := hrest
          _ = (a :: rest).filter (fun x => x.absoluteDate.isSome) := by
              rw [List.filter_cons, if_neg hdneg]
      | false =>
        have hnl : (!(a.structuredLocation.isSome)) = true := by rw [hl]; rfl
        calc ((a :: rest).filter (fun x => !(x.structuredLocation.isSome))).filter
                (fun x => x.absoluteDate.isSome)
            = (a :: rest.filter (fun x => !(x.structuredLocation.isSome))).filter
                (fun x => x.absoluteDate.isSome) := by
              rw [List.filter_cons, if_pos hnl]
          _ = (rest.filter (fun x => !(x.structuredLocation.isSome))).filter
                (fun x => x.absoluteDate.isSome) := by
              rw [List.filter_cons, if_neg hdneg]
          _ = rest.filter (fun x => x.absoluteDate.isSome) := hrest
          _ = (a :: rest).filter (fun x => x.absoluteDate.isSome) := by
              rw [List.filter_cons, if_neg hdneg]

/-- The serializer's `hasLocation` flag is the success of the location scan. -/
theorem toOutput_hasLocation (r : EKReminder) :
    (toOutput r).hasLocation = (locationOf (r.alarms.getD [])).isSome := rfl

/-- The serializer's `location` field is the result of the location scan. -/
theorem toOutput_location (r : EKReminder) :
    (toOutput r).location = locationOf (r.alarms.getD []) := rfl

/-- C3: `clear-location` removes exactly the alarms carrying a structured
location and keeps the rest, so a subsequent `get_location` reports that no
location alarm is set (`hasLocation = false` in the serialized form), while
the reminder's absolute-date (time) alarms are still present. -/
theorem claim_C3 : ∀ (s : EKEventStore) (l rn : String) (o : SuccessOutput)
    (s' : EKEventStore),
    clearLocation s l rn = (Except.ok o, s') →
    ∃ (t t' : EKReminder),
      findReminder s l rn = Except.ok t ∧
      t' = t.removeAlarmsWhere (fun a => a.structuredLocation.isSome) ∧
      findReminder s' l rn = Except.ok t' ∧
      t'.alarms.getD [] =
        (t.alarms.getD []).filter (fun a => !(a.structuredLocation.isSome)) ∧
      (toOutput t').hasLocation = false ∧
      getLocation s' l rn = Except.ok (GetLocationOutput.msg
        { success := true, message := "場所ベースの通知は設定されていません" }) ∧
      ((∀ a ∈ t.alarms.getD [], a.absoluteDate.isSome = true →
          a.structuredLocation = Option.none) →
        (t'.alarms.getD []).filter (fun a => a.absoluteDate.isSome) =
          (t.alarms.getD []).filter (fun a => a.absoluteDate.isSome)) := by
  intro s l rn o s' h
  unfold clearLocation at h
  split at h
  · simp at h
  · rename_i t heq
    injection h with h1 h2
    subst h2
    refine ⟨t, t.removeAlarmsWhere (fun a => a.structuredLocation.isSome), heq, rfl,
      ?_, ?_, ?_, ?_, ?_⟩
    · exact findReminder_save s l rn t _ heq (by simp) (by simp) (by simp)
    · exact EKReminder.removeAlarmsWhere_alarms t _
    · rw [toOutput_hasLocation, EKReminder.removeAlarmsWhere_alarms,
        locationOf_eq_none _ (mem_clear_no_location (t.alarms.getD []))]
      rfl
    · have hfr' := findReminder_save s l rn t
        (t.removeAlarmsWhere (fun a => a.structuredLocation.isSome)) heq
        (by simp) (by simp) (by simp)
      unfold getLocation
      rw [hfr']
      dsimp only
      rw [show (toOutput (t.removeAlarmsWhere (fun a => a.structuredLocation.isSome))).location
          = Option.none from by
        rw [toOutput_location, EKReminder.removeAlarmsWhere_alarms,
          locationOf_eq_none _ (mem_clear_no_location (t.alarms.getD []))]]
    · intro hdisj
      rw [EKReminder.removeAlarmsWhere_alarms]
      exact filter_time_preserved (t.alarms.getD []) hdisj

/-- A failing end-condition construction is always an `invalidDate` on a
supplied `endDate`, and happens only when `endCount` is absent. -/
theorem recurrenceEndOf_error (ec : Option Int) (ed : Option String) (e : RemindersError)
    (h : recurrenceEndOf ec ed = Except.error e) :
    ∃ d, e = RemindersError.invalidDate d ∧ ec = Option.none ∧ ed = some d ∧
      dateFormatterDate d = Option.none := by
  unfold recurrenceEndOf at h
  split at h
  · simp at h
  · split at h
    · rename_i dateStr
      split at h
      · rename_i e2 heq2
        have he : e2 = e := by injection h
        subst he
        unfold parseDate at heq2
        split at heq2
        · simp at heq2
        · rename_i hdd
          refine ⟨dateStr, ?_, rfl, rfl, hdd⟩
          injection heq2 with h1
          exact h1.symm
      · simp at h
    · simp at h

/-- The failure kinds that C7 enumerates for `set-recurrence`: a reminder that
does not resolve, an invalid frequency (reported by the code as a
`success: false` envelope), and an end date that does not parse. -/
def C7claimedFailure (e : RemindersError) : Bool :=
  match e with
  | RemindersError.reminderNotFound _ => true
  | RemindersError.invalidDate _ => true
  | _ => false

/-- Store with no lists at all, on which `set-recurrence` fails with
`listNotFound` — a failure outcome outside the set C7 enumerates. -/
def C7emptyStore : EKEventStore := { calendars := [], reminders := [] }

/-- Counterexample to C7 as stated: on a store without the requested list,
`set-recurrence` fails with `listNotFound`, which is none of ReminderNotFound,
InvalidEnum(frequency), InvalidDate. -/
theorem claim_C7_counterexample :
    (setRecurrence C7emptyStore "Work" "Ship report" "weekly" 1 Option.none Option.none).1 =
      Except.error (RemindersError.listNotFound "Work") ∧
    C7claimedFailure (RemindersError.listNotFound "Work") = false :=
  ⟨rfl, rfl⟩

/-- C7 (amended): the failure outcomes of `set-recurrence` are exactly
ListNotFound, ReminderNotFound, InvalidEnum(frequency) — reported as a
`success: false` envelope — and InvalidDate; an unrecognised frequency on a
resolving reminder yields the InvalidEnum envelope with the store unchanged,
and InvalidDate occurs only for a supplied `endDate` that fails to parse while
`endCount` is absent. -/
theorem claim_C7 : ∀ (s : EKEventStore) (l rn f : String) (iv : Int) (ec : Option Int)
    (ed : Option String) (res : Except RemindersError SuccessOutput) (s' : EKEventStore),
    setRecurrence s l rn f iv ec ed = (res, s') →
    ((∀ e, res = Except.error e →
        e = RemindersError.listNotFound l ∨ e = RemindersError.reminderNotFound rn ∨
        (∃ d, e = RemindersError.invalidDate d)) ∧
     (∀ o, res = Except.ok o → o.success = false →
        parseFrequency f = Option.none ∧ s' = s) ∧
     ((∃ t, findReminder s l rn = Except.ok t) → parseFrequency f = Option.none →
        res = Except.ok { success := false
                        , message := "無効な頻度: " ++ f ++ " (daily/weekly/monthly/yearly)" } ∧
        s' = s) ∧
     (∀ d, res = Except.error (RemindersError.invalidDate d) →
        ec = Option.none ∧ ed = some d ∧ dateFormatterDate d = Option.none)) := by
  intro s l rn f iv ec ed res s' h
  unfold setRecurrence at h
  split at h
  · rename_i e heq
    injection h with h1 h2
    subst h1
    subst h2
    have hkinds := findReminder_error_kinds s l rn e heq
    refine ⟨?_, ?_, ?_, ?_⟩
    · intro e2 he2
      injection he2 with he2
      subst he2
      rcases hkinds with hk | hk
      · exact Or.inl hk
      · exact Or.inr (Or.inl hk)
    · intro o ho
      simp at ho
    · intro ⟨t, ht⟩ _
      rw [heq] at ht
      simp at ht
    · intro d hd
      injection hd with hd
      subst hd
      rcases hkinds with hk | hk <;> simp at hk
  · rename_i t heq
    split at h
    · rename_i hpf
      injection h with h1 h2
      subst h1
      subst h2
      refine ⟨?_, ?_, ?_, ?_⟩
      · intro e2 he2
        simp at he2
      · intro o ho _
        exact ⟨hpf, rfl⟩
      · intro _ _
        exact ⟨rfl, rfl⟩
      · intro d hd
        simp at hd
    · rename_i freq hpf
      split at h
      · rename_i e heq3
        injection h with h1 h2
        subst h1
        subst h2
        obtain ⟨d, hde, hec, hed, hdd⟩ := recurrenceEndOf_error ec ed e heq3
        refine ⟨?_, ?_, ?_, ?_⟩
        · intro e2 he2
          injection he2 with he2
          subst he2
          exact Or.inr (Or.inr ⟨d, hde⟩)
        · intro o ho
          simp at ho
        · intro _ hnone
          rw [hpf] at hnone
          simp at hnone
        · intro d2 hd2
          injection hd2 with hd2
          rw [hde] at hd2
          injection hd2 with hd2
          subst hd2
          exact ⟨hec, hed, hdd⟩
      · rename_i recEnd heq3
        injection h with h1 h2
        subst h1
        subst h2
        refine ⟨?_, ?_, ?_, ?_⟩
        · intro e2 he2
          simp at he2
        · intro o ho hsucc
          injection ho with ho
          rw [← ho] at hsucc
          simp at hsucc
        · intro _ hnone
          rw [hpf] at hnone
          simp at hnone
        · intro d hd
          simp at hd

/-- C9: when `endCount` is supplied, it takes precedence in `set-recurrence`:
the result is independent of the `endDate` argument (which is never parsed),
no `invalidDate` failure is possible, and the end condition is built from the
occurrence count. -/
theorem claim_C9 : ∀ (s : EKEventStore) (l rn f : String) (iv c : Int)
    (ed ed' : Option String),
    (setRecurrence s l rn f iv (some c) ed = setRecurrence s l rn f iv (some c) ed') ∧
    (∀ d, (setRecurrence s l rn f iv (some c) ed).1 ≠
        Except.error (RemindersError.invalidDate d)) ∧
    recurrenceEndOf (some c) ed = Except.ok (some (EKRecurrenceEnd.ofCount c)) := by
  intro s l rn f iv c ed ed'
  refine ⟨rfl, ?_, rfl⟩
  intro d
  unfold setRecurrence
  cases hfr : findReminder s l rn with
  | error e =>
    have hkinds := findReminder_error_kinds s l rn e hfr
    rcases hkinds with hk | hk <;> subst hk <;> simp
  | ok t =>
    cases hpf : parseFrequency f with
    | none => simp
    | some freq => simp [recurrenceEndOf]

/-- C5: in the v1 bulk-listing tool, when the detailed AppleScript projection
throws, the whole call falls back to the simplified names-only script: the
result is the titles-only array for the entire call, and the projection
failure is not surfaced as an error. -/
theorem claim_C5 : ∀ (runAppleScript : String → Except String String)
    (listName : String) (includeCompleted : Bool) (err names : String),
    runAppleScript (detailedScript listName includeCompleted) = Except.error err →
    runAppleScript (simpleScript listName includeCompleted) = Except.ok names →
    getRemindersToolV1 runAppleScript listName includeCompleted =
      Except.ok (jsonStringify2 (if names == "" then [] else names.splitOn ", ")) := by
  intro runAppleScript listName includeCompleted err names hdet hsimp
  unfold getRemindersToolV1
  rw [hdet]
  dsimp only
  rw [hsimp]

-- ============================================================
-- Concrete stores for the witnesses
-- ============================================================

/-- A plain reminder used by the C1 witness. -/
def C1reminder : EKReminder :=
  { id := 1, calendarName := "Work", title := "Ship report", notes := Option.none
  , isCompleted := false, dueDateComponents := Option.none, priority := 0
  , alarms := Option.none, recurrenceRules := Option.none }

/-- Store for the C1 witness. -/
def C1store : EKEventStore := { calendars := [⟨"Work"⟩], reminders := [C1reminder] }

/-- Witness for C1: two concrete `set-remind-date` calls, the final state
carrying exactly the second alarm. -/
theorem claim_C1_witness :
    ∃ (t : EKReminder) (v2 : DateTime),
      dateFormatterDate "2024-03-16 10:00" = some v2 ∧
      findReminder (setRemindDate
          (setRemindDate C1store "Work" "Ship report" "2024-03-15 09:00").2
          "Work" "Ship report" "2024-03-16 10:00").2 "Work" "Ship report" = Except.ok t ∧
      (t.alarms.getD []).filter (fun a => a.absoluteDate.isSome) =
        [{ absoluteDate := some v2, structuredLocation := Option.none
         , proximity := Proximity.none }] :=
  claim_C1.2 C1store "Work" "Ship report" "2024-03-15 09:00" "2024-03-16 10:00"
    { success := true
    , message := "リマインダー「Ship report」の通知日時を「2024-03-15 09:00」に設定しました" }
    (setRemindDate C1store "Work" "Ship report" "2024-03-15 09:00").2
    { success := true
    , message := "リマインダー「Ship report」の通知日時を「2024-03-16 10:00」に設定しました" }
    (setRemindDate (setRemindDate C1store "Work" "Ship report" "2024-03-15 09:00").2
      "Work" "Ship report" "2024-03-16 10:00").2
    rfl rfl

/-- A reminder already carrying two stale recurrence rules, used by the C2
witness. -/
def C2reminder : EKReminder :=
  { id := 2, calendarName := "Work", title := "Ship report", notes := Option.none
  , isCompleted := false, dueDateComponents := Option.none, priority := 0
  , alarms := Option.none
  , recurrenceRules := some
      [ { frequency := EKRecurrenceFrequency.monthly, interval := 3
        , recurrenceEnd := Option.none, daysOfTheWeek := Option.none }
      , { frequency := EKRecurrenceFrequency.yearly, interval := 1
        , recurrenceEnd := Option.none, daysOfTheWeek := Option.none } ] }

/-- Store for the C2 witness. -/
def C2store : EKEventStore := { calendars := [⟨"Work"⟩], reminders := [C2reminder] }

/-- Witness for C2: two concrete `set-recurrence` calls on a reminder that
started with two rules; exactly the second call's rule remains. -/
theorem claim_C2_witness :
    ∃ (t : EKReminder) (freq2 : EKRecurrenceFrequency) (recEnd2 : Option EKRecurrenceEnd),
      parseFrequency "weekly" = some freq2 ∧
      recurrenceEndOf (some 5) Option.none = Except.ok recEnd2 ∧
      findReminder (setRecurrence
          (setRecurrence C2store "Work" "Ship report" "daily" 1 Option.none Option.none).2
          "Work" "Ship report" "weekly" 2 (some 5) Option.none).2
        "Work" "Ship report" = Except.ok t ∧
      t.recurrenceRules.getD [] =
        [{ frequency := freq2, interval := 2, recurrenceEnd := recEnd2
         , daysOfTheWeek := Option.none }] :=
  claim_C2.2 C2store "Work" "Ship report" "daily" 1 Option.none Option.none
    "weekly" 2 (some 5) Option.none
    { success := true
    , message := "リマインダー「Ship report」に繰り返し「毎日」を設定しました" }
    (setRecurrence C2store "Work" "Ship report" "daily" 1 Option.none Option.none).2
    { success := true
    , message := "リマインダー「Ship report」に繰り返し「2週ごと」を設定しました" }
    (setRecurrence (setRecurrence C2store "Work" "Ship report" "daily" 1 Option.none
      Option.none).2 "Work" "Ship report" "weekly" 2 (some 5) Option.none).2
    rfl rfl rfl rfl

/-- A reminder carrying one time alarm and one location alarm, used by the C3
witness. -/
def C3reminder : EKReminder :=
  { id := 3, calendarName := "Work", title := "Ship report", notes := Option.none
  , isCompleted := false, dueDateComponents := Option.none, priority := 0
  , alarms := some
      [ { absoluteDate := some ⟨2024, 3, 15, 9, 0⟩, structuredLocation := Option.none
        , proximity := Proximity.none }
      , { absoluteDate := Option.none
        , structuredLocation := some
            { title := some "Office", geoLocation := some { latitude := 35, longitude := 139 }
            , radius := 100 }
        , proximity := Proximity.enter } ]
  , recurrenceRules := Option.none }

/-- Store for the C3 witness. -/
def C3store : EKEventStore := { calendars := [⟨"Work"⟩], reminders := [C3reminder] }

/-- Witness for C3: a concrete `clear-location` on a reminder with both alarm
kinds. -/
theorem claim_C3_witness :
    ∃ (t t' : EKReminder),
      findReminder C3store "Work" "Ship report" = Except.ok t ∧
      t' = t.removeAlarmsWhere (fun a => a.structuredLocation.isSome) ∧
      findReminder (clearLocation C3store "Work" "Ship report").2 "Work" "Ship report" =
        Except.ok t' ∧
      t'.alarms.getD [] =
        (t.alarms.getD []).filter (fun a => !(a.structuredLocation.isSome)) ∧
      (toOutput t').hasLocation = false ∧
      getLocation (clearLocation C3store "Work" "Ship report").2 "Work" "Ship report" =
        Except.ok (GetLocationOutput.msg
          { success := true, message := "場所ベースの通知は設定されていません" }) ∧
      ((∀ a ∈ t.alarms.getD [], a.absoluteDate.isSome = true →
          a.structuredLocation = Option.none) →
        (t'.alarms.getD []).filter (fun a => a.absoluteDate.isSome) =
          (t.alarms.getD []).filter (fun a => a.absoluteDate.isSome)) :=
  claim_C3 C3store "Work" "Ship report"
    { success := true
    , message := "リマインダー「Ship report」の場所ベース通知を解除しました" }
    (clearLocation C3store "Work" "Ship report").2
    rfl

/-- A completed reminder, used by the C4 witness to show completed reminders
stay addressable. -/
def C4reminder : EKReminder :=
  { id := 4, calendarName := "Work", title := "Done task", notes := Option.none
  , isCompleted := true, dueDateComponents := Option.none, priority := 0
  , alarms := Option.none, recurrenceRules := Option.none }

/-- Store for the C4 witness. -/
def C4store : EKEventStore := { calendars := [⟨"Work"⟩], reminders := [C4reminder] }

/-- Witness for C4: a completed reminder is found and its title matches. -/
theorem claim_C4_witness :
    findReminder C4store "Work" "Done task" = Except.ok C4reminder ∧
    C4reminder.isCompleted = true ∧
    C4reminder.title = "Done task" :=
  ⟨rfl, rfl, claim_C4.2 C4store "Work" "Done task" C4reminder rfl⟩

/-- An environment for the C5 witness: the detailed script throws, the
simplified script returns two names. -/
def C5env : String → Except String String := fun script =>
  if script == detailedScript "Backlog" false then
    Except.error "AppleScript error: missing due date"
  else Except.ok "Task A, Task B"

/-- Witness for C5: with the detailed script throwing, the tool still returns
the names-only array. -/
theorem claim_C5_witness :
    getRemindersToolV1 C5env "Backlog" false =
      Except.ok (jsonStringify2
        (if ("Task A, Task B" == "") then [] else ("Task A, Task B").splitOn ", ")) :=
  claim_C5 C5env "Backlog" false "AppleScript error: missing due date" "Task A, Task B"
    (by simp [C5env]) (by simp [C5env]; decide)

/-- A reminder used by the C7 witness. -/
def C7reminder : EKReminder :=
  { id := 7, calendarName := "Work", title := "Ship report", notes := Option.none
  , isCompleted := false, dueDateComponents := Option.none, priority := 0
  , alarms := Option.none, recurrenceRules := Option.none }

/-- Store for the C7 witness. -/
def C7store : EKEventStore := { calendars := [⟨"Work"⟩], reminders := [C7reminder] }

/-- Witness for C7: an unrecognised frequency on a resolving reminder yields
the InvalidEnum envelope and leaves the store unchanged. -/
theorem claim_C7_witness :
    (setRecurrence C7store "Work" "Ship report" "hourly" 1 Option.none Option.none).1 =
      Except.ok { success := false
                , message := "無効な頻度: hourly (daily/weekly/monthly/yearly)" } ∧
    (setRecurrence C7store "Work" "Ship report" "hourly" 1 Option.none Option.none).2 =
      C7store := by
  have h := (claim_C7 C7store "Work" "Ship report" "hourly" 1 Option.none Option.none
    (setRecurrence C7store "Work" "Ship report" "hourly" 1 Option.none Option.none).1
    (setRecurrence C7store "Work" "Ship report" "hourly" 1 Option.none Option.none).2
    rfl).2.2.1 ⟨C7reminder, rfl⟩ rfl
  exact h

/-- A reminder used by the C9 witness. -/
def C9reminder : EKReminder :=
  { id := 9, calendarName := "Work", title := "Ship report", notes := Option.none
  , isCompleted := false, dueDateComponents := Option.none, priority := 0
  , alarms := Option.none, recurrenceRules := Option.none }

/-- Store for the C9 witness. -/
def C9store : EKEventStore := { calendars := [⟨"Work"⟩], reminders := [C9reminder] }

/-- Witness for C9: with `endCount = 5`, a malformed `endDate` changes
nothing, and the end condition is the occurrence count. -/
theorem claim_C9_witness :
    setRecurrence C9store "Work" "Ship report" "weekly" 2 (some 5) (some "not-a-date") =
      setRecurrence C9store "Work" "Ship report" "weekly" 2 (some 5) Option.none ∧
    recurrenceEndOf (some 5) (some "not-a-date") =
      Except.ok (some (EKRecurrenceEnd.ofCount 5)) :=
  ⟨(claim_C9 C9store "Work" "Ship report" "weekly" 2 5 (some "not-a-date") Option.none).1,
   (claim_C9 C9store "Work" "Ship report" "weekly" 2 5 (some "not-a-date")
     Option.none).2.2⟩

/-- A reminder used by the C10 witness. -/
def C10reminder : EKReminder :=
  { id := 10, calendarName := "Work", title := "Ship report", notes := some "old note"
  , isCompleted := false, dueDateComponents := Option.none, priority := 0
  , alarms := Option.none, recurrenceRules := Option.none }

/-- Store for the C10 witness. -/
def C10store : EKEventStore := { calendars := [⟨"Work"⟩], reminders := [C10reminder] }

/-- Witness for C10: an update carrying a new name, body and append together
with an unparsable date fails with `invalidDate` and changes nothing. -/
theorem claim_C10_witness :
    findReminder C10store "Work" "Ship report" = Except.ok C10reminder ∧
    dateFormatterDate "not-a-date" = Option.none ∧
    updateReminder C10store "Work" "Ship report" (some "New name") (some "New body")
        (some "More text") (some "not-a-date") =
      (Except.error (RemindersError.invalidDate "not-a-date"), C10store) :=
  ⟨rfl, rfl,
   claim_C10 C10store "Work" "Ship report" (some "New name") (some "New body")
     (some "More text") "not-a-date" C10reminder rfl rfl⟩
